import Mathlib

/-!
Verification development for the cortex API-deployment admission and
reconciliation layer.  The Go sources (`pkg/operator/operator` validation file
and `cron.go`) are shallowly embedded below: pure functions become Lean
functions, the in-place mutation of the shared memory-capacity quantity is made
explicit by threading the capacity value, machine integers (int32/int64) are
modelled as `Int` (no value in scope approaches the overflow boundary), and
object storage / cluster queries are modelled as lookups in explicit world
values.  External library calls (aws client, k8s helpers, the declarative
struct validator) that are not part of the repository are modelled from the
specification and marked as such in their doc comments.
-/

namespace Cortex

/-! ### String primitives

Structurally recursive counterparts of the Go string helpers
(`strings.HasPrefix/HasSuffix/Split`, `strconv.ParseInt`, `filepath.Join`,
string slicing), defined over the character list so that every definition
evaluates by kernel reduction. -/

/-- `strings.HasPrefix`. -/
def strStartsWith (p s : String) : Bool :=
  p.toList.isPrefixOf s.toList

/-- `strings.HasSuffix`. -/
def strSuffix (suf s : String) : Bool :=
  suf.toList.reverse.isPrefixOf s.toList.reverse

/-- Drop the first `n` characters. -/
def strDrop (s : String) (n : Nat) : String :=
  ⟨s.toList.drop n⟩

/-- Drop the last character. -/
def strDropLast (s : String) : String :=
  ⟨s.toList.dropLast⟩

/-- `strings.Split` on `'/'` over a character list. -/
def splitSlashChars : List Char → List (List Char)
  | [] => [[]]
  | c :: rest =>
    match splitSlashChars rest with
    | [] => [[]]
    | group :: groups =>
      if c = '/' then [] :: group :: groups else (c :: group) :: groups

/-- `strings.Split(s, "/")`. -/
def splitSlash (s : String) : List String :=
  (splitSlashChars s.toList).map (fun chars => ⟨chars⟩)

/-- Join path components with `"/"` (`strings.Join` / `filepath.Join`; no
dot segments arise in any modelled path). -/
def joinSlash : List String → String
  | [] => ""
  | [part] => part
  | part :: rest => part ++ "/" ++ joinSlash rest

/-- Decimal digits to a number. -/
def digitsToNat : List Char → Nat → Option Nat
  | [], acc => some acc
  | c :: rest, acc =>
    if c.isDigit then digitsToNat rest (acc * 10 + (c.toNat - 48)) else none

/-- `strconv.ParseInt(s, 10, 64)` (sign and decimal digits; empty or
malformed input fails). -/
def parseInt (s : String) : Option Int :=
  match s.toList with
  | [] => none
  | '-' :: rest =>
    match rest with
    | [] => none
    | _ => (digitsToNat rest 0).map (fun n => -(n : Int))
  | chars => (digitsToNat chars 0).map (fun n => (n : Int))

/-- Parse a natural number (no sign). -/
def parseNat (s : String) : Option Nat :=
  match s.toList with
  | [] => none
  | chars => digitsToNat chars 0

/-- Predictor variant.  `userconfig.PredictorType`: the three known variants
plus the unknown value produced for any other type string. -/
inductive PredictorType where
  | python
  | tensorflow
  | onnx
  | unknown
deriving DecidableEq, Repr

/-- `userconfig.Predictor`: predictor section of one API manifest entry. -/
structure Predictor where
  type : PredictorType
  path : String
  model : Option String
  pythonPath : Option String
  config : List (String × String)
  env : List (String × String)
  signatureKey : Option String
deriving DecidableEq, Repr

/-- `userconfig.Compute`.  Replica counts are int32 in the source, resource
quantities are k8s `resource.Quantity`; both are modelled as `Int`, quantities
in milli-units. -/
structure Compute where
  minReplicas : Int
  maxReplicas : Int
  initReplicas : Int
  targetCPUUtilization : Int
  cpu : Int
  mem : Option Int
  gpu : Int
deriving DecidableEq, Repr

/-- `userconfig.Tracker`. -/
structure Tracker where
  key : Option String
  modelType : String
deriving DecidableEq, Repr

/-- `userconfig.API`: one validated manifest entry. -/
structure API where
  name : String
  endpoint : Option String
  tracker : Option Tracker
  predictor : Predictor
  compute : Compute
  index : Nat
  filePath : String
deriving DecidableEq, Repr

/-- Validation errors.  Constructors mirror the error constructors used by the
source; `wrap` models `errors.Wrap` adding one diagnostic-path component. -/
inductive VErr where
  | malformedConfig
  | noAPIs
  | duplicateName (dups : List API)
  | fieldNotSupported (field : String) (ptype : PredictorType)
  | fieldRequired (field : String) (ptype : PredictorType)
  | s3FileNotFound (path : String)
  | invalidTensorFlowDir (path : String)
  | implDoesNotExist (path : String)
  | minReplicasGreaterThanMax (mn mx : Int)
  | initReplicasGreaterThanMax (init mx : Int)
  | initReplicasLessThanMin (init mn : Int)
  | noAvailableCompute (resource : String) (requested available : Int)
  | duplicateEndpointOtherDeployment (otherAPIName : String)
  | s3PathError (path : String)
  | schemaErr (field : String)
  | nilPointerPanic
  | wrap (ctx : String) (e : VErr)
deriving DecidableEq, Repr

/-! ### Object storage world

Modelled from the spec: the object-storage client is an external collaborator
("path existence, list-by-prefix").  A world is the list of object paths
(`"s3://bucket/key"`), kept in the lexicographic key order that S3 listing
returns. -/

/-- The set of objects present in object storage, as full `s3://` paths, in
listing order. -/
structure S3World where
  objects : List String
deriving DecidableEq, Repr

/-- Modelled from the spec: `aws.SplitS3Path` splits `"s3://<bucket>/<key>"`
into bucket and key; malformed paths are errors (`none`). -/
def splitS3Path (p : String) : Option (String × String) :=
  if strStartsWith "s3://" p then
    match splitSlash (strDrop p 5) with
    | [] => none
    | bucket :: keyParts =>
      if bucket = "" then none
      else some (bucket, joinSlash keyParts)
  else none

/-- `s.EnsureSuffix`: append the suffix unless already present. -/
def ensureSuffix (s suffix : String) : String :=
  if strSuffix suffix s then s else s ++ suffix

/-- Modelled from the spec: `aws.S3PathJoin` joins path components with `/`. -/
def s3PathJoin (a b : String) : String :=
  ensureSuffix a "/" ++ b

/-- Modelled from the spec: `awsClient.IsS3PathFile` — the path exists as a
single object. -/
def isS3PathFile (w : S3World) (p : String) : Bool :=
  w.objects.contains p

/-- Modelled from the spec: `awsClient.IsS3PathPrefix` — some object's path
starts with the given prefix. -/
def isS3PathPre (w : S3World) (p : String) : Bool :=
  w.objects.any (fun o => strStartsWith p o)

/-- Modelled from the spec: `S3.ListObjects` with a bucket and key prefix
returns the matching keys in listing order. -/
def s3ListKeys (w : S3World) (bucket pre : String) : List String :=
  w.objects.filterMap fun o =>
    let bucketPre := "s3://" ++ bucket ++ "/"
    if strStartsWith bucketPre o then
      let key := strDrop o bucketPre.length
      if strStartsWith pre key then some key else none
    else none

/-- `isValidTensorFlowS3Directory`: the path directly contains
`saved_model.pb`, `variables/variables.index` and a key with prefix
`variables/variables.data-00000-of`. -/
def isValidTensorFlowS3Directory (w : S3World) (path : String) : Bool :=
  isS3PathFile w (s3PathJoin path "saved_model.pb") &&
  isS3PathFile w (s3PathJoin path "variables/variables.index") &&
  isS3PathPre w (s3PathJoin path "variables/variables.data-00000-of")

/-- One step of the listing loop in `getTFServingExportFromS3Path`: for a key
ending in `saved_model.pb`, the source takes the key's FINAL path component as
the version string (`keyParts[len(keyParts)-1]`), parses it with
`strconv.ParseInt` (failure yields version 0), and keeps the candidate when its
version is `>=` the best so far and the containing directory is a valid
TensorFlow directory. -/
def tfExportStep (w : S3World) (bucket : String) (acc : Int × String)
    (key : String) : Int × String :=
  if strSuffix "saved_model.pb" key then
    let keyParts := splitSlash key
    let versionStr := keyParts.getLastD ""
    let version := (parseInt versionStr).getD 0
    let possiblePath := "s3://" ++ joinSlash (bucket :: keyParts.dropLast)
    if acc.1 ≤ version && isValidTensorFlowS3Directory w possiblePath then
      (version, possiblePath)
    else acc
  else acc

/-- `getTFServingExportFromS3Path`: return the path itself when it is already a
valid TensorFlow directory, otherwise scan the listed keys under the prefix and
return the retained candidate ("" in the source, `none` here, when no candidate
was retained or the path does not split). -/
def getTFServingExportFromS3Path (w : S3World) (path : String) : Option String :=
  if isValidTensorFlowS3Directory w path then some path
  else
    match splitS3Path path with
    | none => none
    | some (bucket, prefix0) =>
      let pre := ensureSuffix prefix0 "/"
      let keys := s3ListKeys w bucket pre
      let best := keys.foldl (tfExportStep w bucket) (0, "")
      if best.2 = "" then none else some best.2

/-- The claim's definition of a path's numeric version: the final path
component parsed as an integer, unparseable components counting as 0. -/
def numericVersion (p : String) : Int :=
  ((parseInt ((splitSlash p).getLastD "")).getD 0)

/-! ### Predictor validation -/

/-- `validatePythonPredictor`: `signatureKey` and `model` must be absent. -/
def validatePythonPredictor (p : Predictor) : Option VErr :=
  if p.signatureKey.isSome then
    some (.fieldNotSupported "signature_key" .python)
  else if p.model.isSome then
    some (.fieldNotSupported "model" .python)
  else none

/-- `validateTensorFlowPredictor`: `model` required; a `.zip` model must exist
as a single object; otherwise resolve the TensorFlow export directory and
rewrite the predictor's model path to it.  `aws.NewFromS3Path` is modelled as
the path-splitting check. -/
def validateTensorFlowPredictor (w : S3World) (p : Predictor) :
    Option VErr × Predictor :=
  match p.model with
  | none => (some (.fieldRequired "model" .tensorflow), p)
  | some model =>
    match splitS3Path model with
    | none => (some (.s3PathError model), p)
    | some _ =>
      if strSuffix ".zip" model then
        if isS3PathFile w model then (none, p)
        else (some (.wrap "model" (.s3FileNotFound model)), p)
      else
        match getTFServingExportFromS3Path w model with
        | none => (some (.wrap "model" (.invalidTensorFlowDir model)), p)
        | some path => (none, { p with model := some path })

/-- `validateONNXPredictor`: `model` required and must exist as a single
object; `signatureKey` must be absent.  The Go source ends this function
without a terminal return statement after the `signatureKey` branch (a missing
return, which the Go compiler rejects); per the spec's resolution, the
fall-through where every rule passed is modelled as returning no error. -/
def validateONNXPredictor (w : S3World) (p : Predictor) : Option VErr :=
  match p.model with
  | none => some (.fieldRequired "model" .onnx)
  | some model =>
    match splitS3Path model with
    | none => some (.s3PathError model)
    | some _ =>
      if isS3PathFile w model then
        if p.signatureKey.isSome then
          some (.fieldNotSupported "signature_key" .onnx)
        else none
      else some (.wrap "model" (.s3FileNotFound model))

/-- `validatePythonPath`: some project file path must begin with the python
path. -/
def validatePythonPath (pythonPath : String) (projectFileMap : List String) :
    Option VErr :=
  if projectFileMap.any (fun fileKey => strStartsWith pythonPath fileKey) then none
  else some (.implDoesNotExist pythonPath)

/-- The variant `switch` of `validatePredictor`: dispatch on the predictor
type (no rule for a type outside the three known variants).  Returns the
(possibly rewritten) predictor alongside the error. -/
def predictorVariantCheck (w : S3World) (p : Predictor) :
    Option VErr × Predictor :=
  match p.type with
  | .python => (validatePythonPredictor p, p)
  | .tensorflow => validateTensorFlowPredictor w p
  | .onnx => (validateONNXPredictor w p, p)
  | .unknown => (none, p)

/-- `validatePredictor`: the variant switch, then require `path` to resolve
in the project file map, then check `pythonPath` when set. -/
def validatePredictor (w : S3World) (p : Predictor)
    (projectFileMap : List String) : Option VErr × Predictor :=
  match predictorVariantCheck w p with
  | (some e, p1) => (some e, p1)
  | (none, p1) =>
    if projectFileMap.contains p1.path then
      match p1.pythonPath with
      | none => (none, p1)
      | some pp =>
        match validatePythonPath pp projectFileMap with
        | some e => (some (.wrap "python_path" e), p1)
        | none => (none, p1)
    else (some (.wrap "path" (.implDoesNotExist p1.path)), p1)

/-! ### Compute validation

`config.Cluster.InstanceMetadata` and the fixed reservation constants are
loaded at process start outside this file; they are modelled from the spec as
an explicit record ("a base CPU/memory reservation, plus, when GPU > 0, an
additional CPU/memory reservation for the device plugin"). -/

/-- Per-node instance metadata and reservation constants. -/
structure ClusterMeta where
  cpu : Int
  gpu : Int
  cortexCPUReserve : Int
  cortexMemReserve : Int
  nvidiaCPUReserve : Int
  nvidiaMemReserve : Int
deriving DecidableEq, Repr

/-- `validateAvailableCompute`.  In the source `maxMem` is a pointer to the
shared memory-capacity quantity and `maxMem.Sub(...)` mutates it in place;
that mutation is made explicit here by returning the new value of the shared
quantity alongside the error.  `maxCPU` and `maxGPU` are per-call copies of
the instance metadata. -/
def validateAvailableCompute (c : Compute) (cl : ClusterMeta) (maxMem : Int) :
    Option VErr × Int :=
  let maxMem1 := maxMem - cl.cortexMemReserve
  let maxCPU0 := cl.cpu - cl.cortexCPUReserve
  let maxGPU := cl.gpu
  let maxCPU := if 0 < maxGPU then maxCPU0 - cl.nvidiaCPUReserve else maxCPU0
  let maxMem2 := if 0 < maxGPU then maxMem1 - cl.nvidiaMemReserve else maxMem1
  if maxCPU < c.cpu then
    (some (.noAvailableCompute "CPU" c.cpu maxCPU), maxMem2)
  else
    match c.mem with
    | some m =>
      if maxMem2 < m then
        (some (.noAvailableCompute "Memory" m maxMem2), maxMem2)
      else if maxGPU < c.gpu then
        (some (.noAvailableCompute "GPU" c.gpu maxGPU), maxMem2)
      else (none, maxMem2)
    | none =>
      if maxGPU < c.gpu then
        (some (.noAvailableCompute "GPU" c.gpu maxGPU), maxMem2)
      else (none, maxMem2)

/-- `validateCompute`: replica-bound ordering checks, then available-capacity
checks.  The shared memory capacity is threaded through. -/
def validateCompute (c : Compute) (cl : ClusterMeta) (maxMem : Int) :
    Option VErr × Int :=
  if c.maxReplicas < c.minReplicas then
    (some (.minReplicasGreaterThanMax c.minReplicas c.maxReplicas), maxMem)
  else if c.maxReplicas < c.initReplicas then
    (some (.initReplicasGreaterThanMax c.initReplicas c.maxReplicas), maxMem)
  else if c.initReplicas < c.minReplicas then
    (some (.initReplicasLessThanMin c.initReplicas c.minReplicas), maxMem)
  else validateAvailableCompute c cl maxMem

/-! ### Endpoint collisions and duplicate names -/

/-- A virtual routing object, with its gateway set, endpoint set, and
`apiName` label ("" when absent), as extracted by the k8s helpers. -/
structure VirtualService where
  gateways : List String
  endpoints : List String
  apiName : String
deriving DecidableEq, Repr

/-- Modelled from the spec: `userconfig.IdentifyAPI` — identifying context
`{filePath, apiName, index}` rendered as a diagnostic-path component. -/
def identifyAPI (filePath name : String) (index : Nat) : String :=
  filePath ++ ": " ++ name ++ " (api " ++ toString index ++ ")"

/-- `api.Identify()`. -/
def API.identify (api : API) : String :=
  identifyAPI api.filePath api.name api.index

/-- `validateEndpointCollisions`: for every virtual service whose gateway set
includes the API gateway, an endpoint equal to the API's endpoint but owned by
a different API name is a duplicate-endpoint error. -/
def validateEndpointCollisions (api : API) (vss : List VirtualService) :
    Option VErr :=
  vss.findSome? fun vs =>
    if vs.gateways.contains "apis-gateway" then
      vs.endpoints.findSome? fun endpoint =>
        if endpoint == api.endpoint.getD "" && vs.apiName != api.name then
          some (.wrap api.identify (.wrap "endpoint" (.wrap endpoint
            (.duplicateEndpointOtherDeployment vs.apiName))))
        else none
    else none

/-- `findDuplicateNames` groups APIs by name into a Go map and returns the
first group with more than one member found while iterating the map.  Go
randomizes map iteration order, so the order in which the distinct names are
visited is an input here (`nameOrder`); the group itself is in declaration
order (append order). -/
def findDuplicateNames (apis : List API) (nameOrder : List String) : List API :=
  match nameOrder with
  | [] => []
  | name :: rest =>
    let group := apis.filter (fun api => api.name == name)
    if group.length > 1 then group else findDuplicateNames apis rest

/-! ### The validation pass -/

/-- `validateAPI`: default the endpoint to `"/" + name` when unset, then
predictor rules, compute rules, endpoint collisions.  Mutations of the API
(endpoint default, model rewrite) and of the shared memory capacity are
explicit in the result. -/
def validateAPI (api : API) (projectFileMap : List String) (w : S3World)
    (vss : List VirtualService) (cl : ClusterMeta) (maxMem : Int) :
    Option VErr × API × Int :=
  let api :=
    if api.endpoint.isNone then { api with endpoint := some ("/" ++ api.name) }
    else api
  match validatePredictor w api.predictor projectFileMap with
  | (some e, _) => (some (.wrap api.identify (.wrap "predictor" e)), api, maxMem)
  | (none, pred1) =>
    let api := { api with predictor := pred1 }
    match validateCompute api.compute cl maxMem with
    | (some e, maxMem1) =>
      (some (.wrap api.identify (.wrap "compute" e)), api, maxMem1)
    | (none, maxMem1) =>
      match validateEndpointCollisions api vss with
      | some e => (some e, api, maxMem1)
      | none => (none, api, maxMem1)

/-- The per-API loop of `validateAPIs`, threading the shared memory-capacity
quantity. -/
def validateAPIsLoop (projectFileMap : List String) (w : S3World)
    (vss : List VirtualService) (cl : ClusterMeta) :
    List API → Int → Except VErr (List API)
  | [], _ => .ok []
  | api :: rest, maxMem =>
    match validateAPI api projectFileMap w vss cl maxMem with
    | (some e, _, _) => .error e
    | (none, api1, maxMem1) =>
      match validateAPIsLoop projectFileMap w vss cl rest maxMem1 with
      | .error e => .error e
      | .ok rest1 => .ok (api1 :: rest1)

/-- `validateAPIs`: non-empty manifest, duplicate-name check, then the per-API
loop.  The capacity snapshot (`maxMem` and `vss`) is the one fetched by
`getValidationK8sResources`.  The source has no explicit return after the
loop; per the spec, falling through means every API passed. -/
def validateAPIs (apis : List API) (projectFileMap : List String) (w : S3World)
    (vss : List VirtualService) (cl : ClusterMeta) (maxMem : Int)
    (nameOrder : List String) : Except VErr (List API) :=
  if apis.isEmpty then .error .noAPIs
  else if (findDuplicateNames apis nameOrder).isEmpty then
    validateAPIsLoop projectFileMap w vss cl apis maxMem
  else .error (.duplicateName (findDuplicateNames apis nameOrder))

/-! ### Schema validation

The declarative `cr.StructValidation` tables (`_apiValidation`,
`_predictorValidation`, `_computeFieldValidation`) applied to a raw manifest
mapping.  Raw mappings are modelled as records of optional fields; the
external validator library's walker is modelled as the direct application of
each table entry (required-ness, defaults, bound predicates, allowed values,
parsers) in table order. -/

/-- Raw compute mapping (absent mapping = all fields absent). -/
structure RawCompute where
  minReplicas : Option Int
  maxReplicas : Option Int
  initReplicas : Option Int
  targetCPUUtilization : Option Int
  cpu : Option String
  mem : Option String
  gpu : Option Int
deriving DecidableEq, Repr

/-- Raw predictor mapping. -/
structure RawPredictor where
  type : Option String
  path : Option String
  model : Option String
  pythonPath : Option String
  config : Option (List (String × String))
  env : Option (List (String × String))
  signatureKey : Option String
deriving DecidableEq, Repr

/-- Raw tracker mapping. -/
structure RawTracker where
  key : Option String
  modelType : Option String
deriving DecidableEq, Repr

/-- Raw API mapping. -/
structure RawAPI where
  name : Option String
  endpoint : Option String
  tracker : Option RawTracker
  predictor : Option RawPredictor
  compute : RawCompute
deriving DecidableEq, Repr

/-- Modelled from the spec: k8s resource-quantity strings in milli-units; the
decimal forms `"<n>m"` (milli) and `"<n>"` (whole units) cover every quantity
the schema and claims use. -/
def parseQuantity (s : String) : Option Int :=
  if strSuffix "m" s then (parseNat (strDropLast s)).map (fun n => (n : Int))
  else (parseNat s).map (fun n => (n : Int) * 1000)

/-- Modelled from the spec: DNS-1035 label — nonempty, lowercase alphanumeric
or `-`, starting with a letter, not ending with `-`. -/
def isDNS1035 (s : String) : Bool :=
  match s.toList with
  | [] => false
  | c :: rest =>
    c.isLower &&
    (c :: rest).all (fun ch => ch.isLower || ch.isDigit || ch == '-') &&
    (s.toList.getLastD 'a') != '-'

/-- `userconfig.PredictorTypeFromString`. -/
def predictorTypeFromString : String → PredictorType
  | "python" => .python
  | "tensorflow" => .tensorflow
  | "onnx" => .onnx
  | _ => .unknown

/-- `_computeFieldValidation` applied to a raw compute mapping: defaults
`minReplicas=1`, `maxReplicas=100`, `initReplicas=minReplicas`,
`targetCPUUtilization=80`, `cpu="200m"`, `gpu=0`; replica counts and the
target must be `> 0`, quantities `> 0`, `gpu ≥ 0`. -/
def computeSchema (raw : RawCompute) : Except VErr Compute :=
  if raw.minReplicas.getD 1 ≤ 0 then .error (.schemaErr "min_replicas")
  else if raw.maxReplicas.getD 100 ≤ 0 then .error (.schemaErr "max_replicas")
  else if raw.initReplicas.getD (raw.minReplicas.getD 1) ≤ 0 then
    .error (.schemaErr "init_replicas")
  else if raw.targetCPUUtilization.getD 80 ≤ 0 then
    .error (.schemaErr "target_cpu_utilization")
  else
    match parseQuantity (raw.cpu.getD "200m") with
    | none => .error (.schemaErr "cpu")
    | some cpuQ =>
      if cpuQ ≤ 0 then .error (.schemaErr "cpu")
      else
        match raw.mem with
        | none =>
          if raw.gpu.getD 0 < 0 then .error (.schemaErr "gpu")
          else
            .ok ⟨raw.minReplicas.getD 1, raw.maxReplicas.getD 100,
                 raw.initReplicas.getD (raw.minReplicas.getD 1),
                 raw.targetCPUUtilization.getD 80, cpuQ, none, raw.gpu.getD 0⟩
        | some memStr =>
          match parseQuantity memStr with
          | none => .error (.schemaErr "mem")
          | some memQ =>
            if memQ ≤ 0 then .error (.schemaErr "mem")
            else if raw.gpu.getD 0 < 0 then .error (.schemaErr "gpu")
            else
              .ok ⟨raw.minReplicas.getD 1, raw.maxReplicas.getD 100,
                   raw.initReplicas.getD (raw.minReplicas.getD 1),
                   raw.targetCPUUtilization.getD 80, cpuQ, some memQ,
                   raw.gpu.getD 0⟩

/-- `_predictorValidation` applied to a raw predictor mapping: `type` required
with allowed values, `path` required, `model` must be a well-formed s3 path,
`pythonPath` normalized to end with `"/"`, `config`/`env` default to empty. -/
def predictorSchema (raw : RawPredictor) : Except VErr Predictor :=
  match raw.type with
  | none => .error (.schemaErr "predictor.type")
  | some t =>
    if t = "python" ∨ t = "tensorflow" ∨ t = "onnx" then
      match raw.path with
      | none => .error (.schemaErr "predictor.path")
      | some path =>
        if raw.model.any (fun m => (splitS3Path m).isNone) then
          .error (.schemaErr "predictor.model")
        else
          .ok ⟨predictorTypeFromString t, path, raw.model,
               raw.pythonPath.map (fun p => ensureSuffix p "/"),
               raw.config.getD [], raw.env.getD [], raw.signatureKey⟩
    else .error (.schemaErr "predictor.type")

/-- Tracker table: `modelType` restricted to
`{"", "classification", "regression"}`. -/
def trackerSchema (raw : RawTracker) : Except VErr Tracker :=
  let mt := raw.modelType.getD ""
  if mt = "" ∨ mt = "classification" ∨ mt = "regression" then
    .ok ⟨raw.key, mt⟩
  else .error (.schemaErr "tracker.model_type")

/-- Modelled from the spec: `urls.ValidateEndpoint` — the endpoint is a URL
path. -/
def isValidEndpointString (e : String) : Bool :=
  strStartsWith "/" e

/-- `_apiValidation` applied to one raw manifest entry, producing the typed
API with the given provenance (`index`, `filePath`). -/
def apiSchema (raw : RawAPI) (index : Nat) (filePath : String) :
    Except VErr API :=
  match raw.name with
  | none => .error (.schemaErr "name")
  | some name =>
    if isDNS1035 name then
      if raw.endpoint.any (fun e => !isValidEndpointString e) then
        .error (.schemaErr "endpoint")
      else
        let trackerRes : Except VErr (Option Tracker) :=
          match raw.tracker with
          | none => .ok none
          | some rt =>
            match trackerSchema rt with
            | .error e => .error e
            | .ok t => .ok (some t)
        match trackerRes with
        | .error e => .error e
        | .ok tracker =>
          match raw.predictor with
          | none => .error (.schemaErr "predictor")
          | some rp =>
            match predictorSchema rp with
            | .error e => .error e
            | .ok pred =>
              match computeSchema raw.compute with
              | .error e => .error e
              | .ok comp =>
                .ok ⟨name, raw.endpoint, tracker, pred, comp, index, filePath⟩
    else .error (.schemaErr "name")

/-! ### The validation entry point -/

/-- The per-entry schema loop of `ExtractAPIConfigs`: the first schema error
is wrapped with `IdentifyAPI(filePath, name, index)`. -/
def schemaAPIsAux (filePath : String) : List RawAPI → Nat → Except VErr (List API)
  | [], _ => .ok []
  | raw :: rest, i =>
    match apiSchema raw i filePath with
    | .error e => .error (.wrap (identifyAPI filePath (raw.name.getD "") i) e)
    | .ok api =>
      match schemaAPIsAux filePath rest (i + 1) with
      | .error e => .error e
      | .ok apis => .ok (api :: apis)

/-- The slice of API pointers built by `ExtractAPIConfigs`: the source
allocates `apis := make([]*API, len(configDataSlice))` — a slice already
holding one nil pointer per manifest entry — and then `append`s each validated
API to it, so the result is the nil prefix followed by the validated APIs.
A nil pointer is `none`. -/
def extractedSlice (raws : List RawAPI) (filePath : String) :
    Except VErr (List (Option API)) :=
  match schemaAPIsAux filePath raws 0 with
  | .error e => .error e
  | .ok apis => .ok (List.replicate raws.length none ++ apis.map some)

/-- `validateAPIs` as invoked on the pointer slice built by
`ExtractAPIConfigs`.  Go dereferences every entry while building the name map
in `findDuplicateNames`; dereferencing a nil entry is a runtime panic,
modelled as the distinguished error `nilPointerPanic`. -/
def validateAPIsSlice (slice : List (Option API)) (projectFileMap : List String)
    (w : S3World) (vss : List VirtualService) (cl : ClusterMeta) (maxMem : Int)
    (nameOrder : List String) : Except VErr (List API) :=
  if slice.isEmpty then .error .noAPIs
  else if slice.any (fun entry => entry.isNone) then .error .nilPointerPanic
  else validateAPIs (slice.filterMap id) projectFileMap w vss cl maxMem nameOrder

/-- `ExtractAPIConfigs`: per-entry schema validation into the pre-sized slice,
then the validation pass; on success the source returns the slice it built. -/
def extractAPIConfigs (raws : List RawAPI) (filePath : String)
    (projectFileMap : List String) (w : S3World) (vss : List VirtualService)
    (cl : ClusterMeta) (maxMem : Int) (nameOrder : List String) :
    Except VErr (List (Option API)) :=
  match extractedSlice raws filePath with
  | .error e => .error e
  | .ok slice =>
    match validateAPIsSlice slice projectFileMap w vss cl maxMem nameOrder with
    | .error e => .error e
    | .ok _ => .ok slice

/-! ### Reconciler (cron.go) -/

namespace Cron

/-- Boolean string-list membership (`HPAExists` checks, modelled as membership
in the set of API names that currently have an autoscaler). -/
def strMem (x : String) : List String → Bool
  | [] => false
  | y :: rest => x == y || strMem x rest

/-- A deployment condition (`kapps.DeploymentCondition`): type, status, and
last-update timestamp in seconds (0 is the zero time). -/
structure DCondition where
  condType : String
  status : String
  lastUpdateTime : Nat
deriving DecidableEq, Repr

/-- A deployment: its `apiName` label, desired replica count
(`Spec.Replicas`), pod-template hash, and status conditions. -/
structure Deployment where
  apiName : String
  replicas : Int
  templateHash : String
  conditions : List DCondition
deriving DecidableEq, Repr

/-- A pod: its `apiName` label ("" when absent), readiness, and pod-spec
hash.  Modelled from the spec: `k8s.IsPodReady` is the readiness flag and
`k8s.IsPodSpecLatest` compares the pod's spec hash with the deployment's
template hash. -/
structure Pod where
  apiName : String
  ready : Bool
  specHash : String
deriving DecidableEq, Repr

/-- `numUpdatedReadyReplicas`: count pods carrying the deployment's API label
that are both ready and running the latest pod spec (int32 counter). -/
def numUpdatedReadyReplicas (d : Deployment) (pods : List Pod) : Int :=
  Int.ofNat (pods.countP fun p =>
    p.apiName == d.apiName && p.ready && p.specHash == d.templateHash)

/-- The condition filter of `updateHPAs`: progressing, true, non-zero
last-update time, and `time.Now().After(lastUpdateTime + 35s)` — the 35-second
dwell exceeds the 30-second metrics poll interval. -/
def progressOK (now : Nat) (c : DCondition) : Bool :=
  c.condType == "Progressing" && c.status == "True" &&
  c.lastUpdateTime != 0 && decide (c.lastUpdateTime + 35 < now)

/-- `updateHPAs`: for each deployment, skip when an autoscaler already exists
for its API name (checked against the live cluster, so creations earlier in
the same tick are visible), skip when the updated-ready replica count is below
the desired count, and otherwise create an autoscaler for every matching
progressing condition.  The result is the list of API names for which an
autoscaler was created, in creation order. -/
def updateHPAs (pods : List Pod) (now : Nat) :
    List String → List Deployment → List String
  | _, [] => []
  | hpas, d :: rest =>
    if strMem d.apiName hpas then updateHPAs pods now hpas rest
    else if numUpdatedReadyReplicas d pods < d.replicas then
      updateHPAs pods now hpas rest
    else
      let created := (d.conditions.filter (progressOK now)).map
        (fun _ => d.apiName)
      created ++ updateHPAs pods now (hpas ++ created) rest

/-! ### Telemetry probe (cron.go) -/

/-- A cluster node with its label map. -/
structure KNode where
  labels : List (String × String)
deriving DecidableEq, Repr

/-- Go map label lookup: "" when the label is absent. -/
def nodeLabel (n : KNode) (k : String) : String :=
  (n.labels.lookup k).getD ""

/-- A worker node carries the label `workload=true`. -/
def isWorkerNode (n : KNode) : Bool :=
  nodeLabel n "workload" == "true"

/-- The instance-type bucket of a node: its instance-type label, or
`"unknown"` when the label is absent (Go yields "" for a missing key). -/
def instanceTypeOf (n : KNode) : String :=
  let t := nodeLabel n "beta.kubernetes.io/instance-type"
  if t == "" then "unknown" else t

/-- `instanceTypeCounts[instanceType]++` on the Go map, modelled as an
association list updated in place (first-insertion order; a Go map is
unordered, only its contents are observable). -/
def incrCount : List (String × Nat) → String → List (String × Nat)
  | [], t => [(t, 1)]
  | (k, c) :: rest, t =>
    if k == t then (k, c + 1) :: rest else (k, c) :: incrCount rest t

/-- The node loop of `telemetryCron`, accumulating the instance-type counts
and the total instance count. -/
def telemetryLoop : List KNode → List (String × Nat) → Nat →
    List (String × Nat) × Nat
  | [], counts, total => (counts, total)
  | n :: rest, counts, total =>
    if isWorkerNode n then
      telemetryLoop rest (incrCount counts (instanceTypeOf n)) (total + 1)
    else telemetryLoop rest counts total

/-- The `{instanceTypes, instanceCount}` properties of the single event
emitted by `telemetryCron`. -/
def telemetryEvent (nodes : List KNode) : List (String × Nat) × Nat :=
  telemetryLoop nodes [] 0

/-- Sum of the values of the counts map. -/
def sumVals (m : List (String × Nat)) : Nat :=
  (m.map Prod.snd).sum

/-- The number of worker nodes whose instance-type bucket is `t`. -/
def workerCount (nodes : List KNode) (t : String) : Nat :=
  (nodes.filter isWorkerNode).countP (fun n => instanceTypeOf n == t)

/-- Two ready pods for API `x` on the latest spec. -/
def podsX : List Pod := [⟨"x", true, "h1"⟩, ⟨"x", true, "h1"⟩]

/-- A deployment for API `x` desiring 2 replicas, progressing True since
time 10. -/
def depX : Deployment := ⟨"x", 2, "h1", [⟨"Progressing", "True", 10⟩]⟩

end Cron

/-! ### Result projections and concrete fixtures -/

/-- Whether a validation result is a success. -/
def exceptOk {α : Type} : Except VErr α → Bool
  | .ok _ => true
  | .error _ => false

/-- The duplicate-name group reported by a validation result, when the result
is a `DUPLICATE_NAME` error. -/
def dupsReported : Except VErr (List API) → Option (List API)
  | .error (.duplicateName l) => some l
  | _ => none

/-- The slice returned by a successful extraction. -/
def sliceOk : Except VErr (List (Option API)) → Option (List (Option API))
  | .ok s => some s
  | _ => none

/-- Whether an extraction result is the nil-pointer panic. -/
def nilPanicked : Except VErr (List (Option API)) → Bool
  | .error .nilPointerPanic => true
  | _ => false

/-- Project files: a single `p.py`. -/
def pfm0 : List String := ["p.py"]

/-- An empty object-storage world. -/
def w0 : S3World := ⟨[]⟩

/-- Instance metadata with CPU 1000 (milli), no GPU, reservations CPU 100 /
memory 3, nvidia CPU 100 / memory 1. -/
def cl0 : ClusterMeta := ⟨1000, 0, 100, 3, 100, 1⟩

/-- A python predictor over `p.py`. -/
def pyPredictor : Predictor := ⟨.python, "p.py", none, none, [], [], none⟩

/-- A compute spec requesting memory 5 (one replica, cpu 100). -/
def memCompute : Compute := ⟨1, 1, 1, 80, 100, some 5, 0⟩

/-- A compute spec with no memory request. -/
def plainCompute : Compute := ⟨1, 1, 1, 80, 100, none, 0⟩

/-- API `a` requesting memory 5. -/
def apiMemA : API := ⟨"a", none, none, pyPredictor, memCompute, 0, "cortex.yaml"⟩

/-- API `b`, identical to `apiMemA` but for the name. -/
def apiMemB : API := ⟨"b", none, none, pyPredictor, memCompute, 1, "cortex.yaml"⟩

/-- API `a` with explicit endpoint `/x`. -/
def apiEpA : API := ⟨"a", some "/x", none, pyPredictor, plainCompute, 0, "cortex.yaml"⟩

/-- API `b` with the same endpoint `/x`. -/
def apiEpB : API := ⟨"b", some "/x", none, pyPredictor, plainCompute, 1, "cortex.yaml"⟩

/-- First API named `a`. -/
def dupA0 : API := ⟨"a", none, none, pyPredictor, plainCompute, 0, "cortex.yaml"⟩

/-- Second API named `a`. -/
def dupA1 : API := ⟨"a", none, none, pyPredictor, plainCompute, 1, "cortex.yaml"⟩

/-- First API named `b`. -/
def dupB0 : API := ⟨"b", none, none, pyPredictor, plainCompute, 2, "cortex.yaml"⟩

/-- Second API named `b`. -/
def dupB1 : API := ⟨"b", none, none, pyPredictor, plainCompute, 3, "cortex.yaml"⟩

/-- A manifest with two duplicate-name groups: names `a, a, b, b`. -/
def apis4 : List API := [dupA0, dupA1, dupB0, dupB1]

/-- Object storage holding two complete TensorFlow export directories,
`m/10` and `m/2`, in S3's lexicographic listing order. -/
def w4 : S3World := ⟨[
  "s3://b/m/10/saved_model.pb",
  "s3://b/m/10/variables/variables.data-00000-of-00001",
  "s3://b/m/10/variables/variables.index",
  "s3://b/m/2/saved_model.pb",
  "s3://b/m/2/variables/variables.data-00000-of-00001",
  "s3://b/m/2/variables/variables.index"]⟩

/-- The one-entry manifest `[{name: "a", predictor: {type: python,
path: "p.py"}}]`. -/
def rawOneEntry : RawAPI :=
  ⟨some "a", none, none, some ⟨some "python", some "p.py", none, none, none, none, none⟩,
   ⟨none, none, none, none, none, none, none⟩⟩

/-- The API produced for `rawOneEntry` by the schema tables: defaults
`minReplicas=1`, `maxReplicas=100`, `initReplicas=1`,
`targetCPUUtilization=80`, `cpu=200m`, `gpu=0`. -/
def apiOneEntry : API :=
  ⟨"a", none, none, ⟨.python, "p.py", none, none, [], [], none⟩,
   ⟨1, 100, 1, 80, 200, none, 0⟩, 0, "app.yaml"⟩

/-- Object storage holding the single object `s3://b/model.onnx`. -/
def wOnnx : S3World := ⟨["s3://b/model.onnx"]⟩

/-- An ONNX predictor whose model is that object and whose signatureKey is
absent. -/
def onnxPredictor : Predictor :=
  ⟨.onnx, "p.py", some "s3://b/model.onnx", none, [], [], none⟩

/-- A predictor with an out-of-variant type, with model and signatureKey
both present. -/
def oddPredictor : Predictor :=
  ⟨.unknown, "p.py", some "s3://b/m", none, [], [], some "k"⟩

/-- The three `REPLICA_BOUND_VIOLATION` error forms. -/
def isReplicaBoundErr : VErr → Bool
  | .minReplicasGreaterThanMax _ _ => true
  | .initReplicasGreaterThanMax _ _ => true
  | .initReplicasLessThanMin _ _ => true
  | _ => false

/-- The raw compute mapping `{minReplicas: 5, maxReplicas: 3}`. -/
def rawMin5Max3 : RawCompute := ⟨some 5, some 3, none, none, none, none, none⟩

/-- The compute spec the schema produces for `rawMin5Max3`
(`initReplicas` defaults to `minReplicas`). -/
def computeMin5Max3 : Compute := ⟨5, 3, 5, 80, 200, none, 0⟩

/-- Whether an error is (or wraps) a duplicate-endpoint error. -/
def errHasDupEndpoint : VErr → Bool
  | .duplicateEndpointOtherDeployment _ => true
  | .wrap _ e => errHasDupEndpoint e
  | _ => false

/-- Whether a validation pass failed with a duplicate-endpoint error. -/
def resultHasDupEndpoint : Except VErr (List API) → Bool
  | .error e => errHasDupEndpoint e
  | .ok _ => false

/-- An optional error that is not a duplicate-endpoint error. -/
def optClean (o : Option VErr) : Prop :=
  ∀ e, o = some e → errHasDupEndpoint e = false

/-! ### Claims -/

/-- C1: the claim states that for every manifest that validates, the entry
point returns exactly one non-null API per manifest entry.  In the source,
`ExtractAPIConfigs` pre-sizes the pointer slice to the manifest length and
then appends, so the slice it builds (and would return) for the one-entry
manifest is `[nil, api]` — two entries, the first nil — and the validation
pass dereferences that nil pointer while grouping names.  The schema stage
itself produces the API with endpoint unset and defaults `minReplicas=1`,
`maxReplicas=100`, `cpu=200m`. -/
theorem extract_slice_nil_bug :
    sliceOk (extractedSlice [rawOneEntry] "app.yaml") =
      some [none, some apiOneEntry]
    ∧ nilPanicked
        (extractAPIConfigs [rawOneEntry] "app.yaml" pfm0 w0 [] cl0 10 ["a"]) =
      true := by
  decide

/-- C2: the claim states that the capacity snapshot is not modified by
validating an API.  In the source `validateAvailableCompute` subtracts the
reservation from the shared memory-capacity quantity through a pointer on
every call, so each validated API shrinks the memory capacity the next API is
checked against: the same API that passes alone (capacity 10, reserve 3,
request 5 against 7) fails as the second entry (request 5 against 4). -/
theorem capacity_snapshot_mutation_bug :
    exceptOk (validateAPIs [apiMemA] pfm0 w0 [] cl0 10 ["a", "b"]) = true
    ∧ exceptOk (validateAPIs [apiMemA, apiMemB] pfm0 w0 [] cl0 10 ["a", "b"]) =
      false
    ∧ (validateAvailableCompute memCompute cl0 10).1 = none
    ∧ (validateAvailableCompute memCompute cl0 10).2 = 7
    ∧ (validateAvailableCompute memCompute cl0 7).1 =
      some (.noAvailableCompute "Memory" 5 4)
    ∧ (validateAvailableCompute memCompute cl0 7).2 = 4 := by
  decide

/-- C3 counterexample: two APIs with distinct names `a`, `b` but the same
endpoint `/x`, against a cluster with no virtual services, are both accepted
by the validation pass — no manifest-level duplicate-endpoint error is
raised, contrary to the claim. -/
theorem duplicate_endpoint_same_manifest_accepted :
    exceptOk (validateAPIs [apiEpA, apiEpB] pfm0 w0 [] cl0 10 ["a", "b"]) =
      true := by
  decide

/-- C4: the claim states that the selected TensorFlow export path has the
greatest numeric version among valid candidates.  The source takes the final
path component of the listed object key — always `saved_model.pb`, never an
integer — as the version string, so every candidate parses to version 0 and
the last valid directory in listing order wins: with valid exports `m/10` and
`m/2`, probing `s3://b/m` selects `s3://b/m/2` (version 2) although
`s3://b/m/10` (version 10) is a valid candidate. -/
theorem tf_version_resolution_bug :
    getTFServingExportFromS3Path w4 "s3://b/m" = some "s3://b/m/2"
    ∧ isValidTensorFlowS3Directory w4 "s3://b/m/10" = true
    ∧ isValidTensorFlowS3Directory w4 "s3://b/m/2" = true
    ∧ isValidTensorFlowS3Directory w4 "s3://b/m" = false
    ∧ numericVersion "s3://b/m/10" = 10
    ∧ numericVersion "s3://b/m/2" = 2 := by
  decide

/-- C5: the claim states that two validation passes on the same inputs produce
identical error messages.  `findDuplicateNames` returns the first
duplicate-name group encountered while iterating a Go map, whose iteration
order is randomized: on the manifest with names `a, a, b, b`, visiting the
names in order `[a, b]` reports the `a` group while `[b, a]` reports the `b`
group, so two runs can emit different `DUPLICATE_NAME` errors. -/
theorem duplicate_name_order_dependent :
    dupsReported (validateAPIs apis4 pfm0 w0 [] cl0 10 ["a", "b"]) =
      some [dupA0, dupA1]
    ∧ dupsReported (validateAPIs apis4 pfm0 w0 [] cl0 10 ["b", "a"]) =
      some [dupB0, dupB1]
    ∧ dupsReported (validateAPIs apis4 pfm0 w0 [] cl0 10 ["a", "b"]) ≠
      dupsReported (validateAPIs apis4 pfm0 w0 [] cl0 10 ["b", "a"]) := by
  decide

/-- `isS3PathFile` is membership in the world's object list. -/
theorem isS3PathFile_iff (w : S3World) (m : String) :
    isS3PathFile w m = true ↔ m ∈ w.objects := by
  simp [isS3PathFile, List.elem_iff]

/-- C6: ONNX predictor validation (with the source's missing terminal return
completed to "no error", per the spec) succeeds exactly when the model field
is present, the model path is a single existing object, and `signatureKey` is
absent; each failing condition yields its corresponding error.  The world is
assumed to hold well-formed `s3://` object paths. -/
theorem onnx_validation_iff (w : S3World) (p : Predictor)
    (hWF : ∀ o ∈ w.objects, (splitS3Path o).isSome = true) :
    (validateONNXPredictor w p = none ↔
      ∃ m, p.model = some m ∧ isS3PathFile w m = true ∧ p.signatureKey = none)
    ∧ (p.model = none →
        validateONNXPredictor w p = some (.fieldRequired "model" .onnx))
    ∧ (∀ m, p.model = some m → (splitS3Path m).isSome = true →
        isS3PathFile w m = false →
        validateONNXPredictor w p = some (.wrap "model" (.s3FileNotFound m)))
    ∧ (∀ m, p.model = some m → isS3PathFile w m = true →
        p.signatureKey.isSome = true →
        validateONNXPredictor w p =
          some (.fieldNotSupported "signature_key" .onnx)) := by
  refine ⟨?_, ?_, ?_, ?_⟩
  · cases hm : p.model with
    | none => simp [validateONNXPredictor, hm]
    | some m =>
      cases hsp : splitS3Path m with
      | none =>
        have hnotmem : isS3PathFile w m = false := by
          cases hfile : isS3PathFile w m with
          | false => rfl
          | true =>
            have hmem := (isS3PathFile_iff w m).mp hfile
            have h2 := hWF m hmem
            rw [hsp] at h2
            exact absurd h2 (by simp)
        simp [validateONNXPredictor, hm, hsp, hnotmem]
      | some bp =>
        cases hfile : isS3PathFile w m with
        | false => simp [validateONNXPredictor, hm, hsp, hfile]
        | true =>
          cases hsig : p.signatureKey with
          | none => simp [validateONNXPredictor, hm, hsp, hfile, hsig]
          | some k => simp [validateONNXPredictor, hm, hsp, hfile, hsig]
  · intro hm; simp [validateONNXPredictor, hm]
  · intro m hm hsp hfile
    cases hsp2 : splitS3Path m with
    | none => rw [hsp2] at hsp; exact absurd hsp (by simp)
    | some bp => simp [validateONNXPredictor, hm, hsp2, hfile]
  · intro m hm hfile hsig
    have hmem := (isS3PathFile_iff w m).mp hfile
    have hsp := hWF m hmem
    cases hsp2 : splitS3Path m with
    | none => rw [hsp2] at hsp; exact absurd hsp (by simp)
    | some bp => simp [validateONNXPredictor, hm, hsp2, hfile, hsig]

/-- Witness for C6: the iff applied at a concrete world and predictor — all
three conditions hold and validation returns no error. -/
theorem onnx_validation_iff_witness :
    validateONNXPredictor wOnnx onnxPredictor = none :=
  (onnx_validation_iff wOnnx onnxPredictor (by decide)).1.mpr
    ⟨"s3://b/model.onnx", rfl, by decide, rfl⟩

/-- C10: for a predictor whose type is outside the three known variants, no
variant-specific rule is applied: validation succeeds exactly when the
predictor path resolves in the project file map and any pythonPath prefixes
some project file, regardless of the model and signatureKey fields. -/
theorem unknown_predictor_validation (w : S3World) (p : Predictor)
    (pfm : List String) (h : p.type = .unknown) :
    ((validatePredictor w p pfm).1 = none ↔
      (pfm.contains p.path = true ∧
       ∀ pp, p.pythonPath = some pp →
         pfm.any (fun f => strStartsWith pp f) = true)) := by
  simp only [validatePredictor, predictorVariantCheck, h]
  cases hpath : pfm.contains p.path with
  | false =>
    simp only [Bool.false_eq_true, if_false]
    constructor
    · intro hcontra; exact absurd hcontra (by simp)
    · rintro ⟨hc, _⟩; exact absurd hc (by simp)
  | true =>
    simp only [if_true]
    cases hpp : p.pythonPath with
    | none => simp
    | some pp =>
      simp only [validatePythonPath]
      cases hany : pfm.any (fun f => strStartsWith pp f) with
      | false =>
        simp [hany]
        simpa using hany
      | true =>
        simp [hany]
        simpa using hany

/-- Witness for C10: the equivalence applied at a concrete predictor with
model and signatureKey set — validation still succeeds. -/
theorem unknown_predictor_validation_witness :
    (validatePredictor w0 oddPredictor pfm0).1 = none :=
  (unknown_predictor_validation w0 oddPredictor pfm0 rfl).mpr
    ⟨by decide, fun pp hpp => by cases hpp⟩

/-- C7: every compute spec the schema accepts has strictly positive replica
counts; when `validateCompute` additionally passes, the full ordering
`0 < minReplicas ≤ initReplicas ≤ maxReplicas` holds on the accepted API's
compute; and every schema-accepted spec violating the ordering is rejected by
`validateCompute` with a replica-bound error. -/
theorem compute_replica_bounds (raw : RawCompute) (c : Compute)
    (hs : computeSchema raw = .ok c) :
    (0 < c.minReplicas ∧ 0 < c.initReplicas ∧ 0 < c.maxReplicas)
    ∧ (∀ cl maxMem rest, validateCompute c cl maxMem = (none, rest) →
        c.minReplicas ≤ c.initReplicas ∧ c.initReplicas ≤ c.maxReplicas)
    ∧ (∀ cl maxMem,
        (c.maxReplicas < c.minReplicas ∨ c.maxReplicas < c.initReplicas ∨
         c.initReplicas < c.minReplicas) →
        ∃ e, (validateCompute c cl maxMem).1 = some e ∧
          isReplicaBoundErr e = true) := by
  refine ⟨?_, ?_, ?_⟩
  · unfold computeSchema at hs
    repeat' split at hs
    all_goals try (exfalso; exact Except.noConfusion hs)
    all_goals cases hs
    all_goals exact ⟨by dsimp only; omega, by dsimp only; omega,
      by dsimp only; omega⟩
  · intro cl maxMem rest hv
    unfold validateCompute at hv
    split at hv
    · exact absurd hv (by simp)
    · split at hv
      · exact absurd hv (by simp)
      · split at hv
        · exact absurd hv (by simp)
        · omega
  · intro cl maxMem hviol
    unfold validateCompute
    split
    · exact ⟨_, rfl, rfl⟩
    · split
      · exact ⟨_, rfl, rfl⟩
      · split
        · exact ⟨_, rfl, rfl⟩
        · omega

/-- Witness for C7: the theorem applied at the spec's concrete example
`{minReplicas: 5, maxReplicas: 3}` — a replica-bound error is produced. -/
theorem compute_replica_bounds_witness :
    ∃ e, (validateCompute computeMin5Max3 cl0 10).1 = some e ∧
      isReplicaBoundErr e = true :=
  (compute_replica_bounds rawMin5Max3 computeMin5Max3 rfl).2.2 cl0 10
    (by decide)

namespace Cron

/-- Membership over an appended list. -/
theorem strMem_append (x : String) (a b : List String) :
    strMem x (a ++ b) = (strMem x a || strMem x b) := by
  induction a with
  | nil => simp [strMem]
  | cons y rest ih => simp [strMem, ih, Bool.or_assoc]

/-- `strMem` is list membership. -/
theorem strMem_iff (x : String) (l : List String) :
    strMem x l = true ↔ x ∈ l := by
  induction l with
  | nil => simp [strMem]
  | cons y rest ih => simp [strMem, ih, List.mem_cons]

/-- Soundness of autoscaler creation: a created name was not already present
and belongs to a deployment meeting the replica and progressing-condition
requirements. -/
theorem updateHPAs_mem (pods : List Pod) (now : Nat) :
    ∀ (ds : List Deployment) (hpas : List String) (name : String),
      name ∈ updateHPAs pods now hpas ds →
      strMem name hpas = false ∧
      ∃ d, d ∈ ds ∧ d.apiName = name ∧
        d.replicas ≤ numUpdatedReadyReplicas d pods ∧
        ∃ c, c ∈ d.conditions ∧ c.condType = "Progressing" ∧
          c.status = "True" ∧ c.lastUpdateTime ≠ 0 ∧
          c.lastUpdateTime + 35 < now := by
  intro ds
  induction ds with
  | nil => intro hpas name h; simp [updateHPAs] at h
  | cons d rest ih =>
    intro hpas name h
    simp only [updateHPAs] at h
    split at h
    · obtain ⟨hmem, d2, hd2, hfacts⟩ := ih hpas name h
      exact ⟨hmem, d2, List.mem_cons_of_mem _ hd2, hfacts⟩
    · rename_i hguard1
      split at h
      · obtain ⟨hmem, d2, hd2, hfacts⟩ := ih hpas name h
        exact ⟨hmem, d2, List.mem_cons_of_mem _ hd2, hfacts⟩
      · rename_i hguard2
        rcases List.mem_append.mp h with hc | hr
        · obtain ⟨c, hcf, hcn⟩ := List.mem_map.mp hc
          obtain ⟨hcmem, hcok⟩ := List.mem_filter.mp hcf
          simp only [progressOK, Bool.and_eq_true, beq_iff_eq, bne_iff_ne,
            decide_eq_true_eq] at hcok
          refine ⟨?_, d, List.mem_cons_self d rest, hcn, by omega,
            c, hcmem, hcok.1.1.1, hcok.1.1.2, hcok.1.2, hcok.2⟩
          subst hcn
          exact Bool.eq_false_iff.mpr hguard1
        · obtain ⟨hmem, d2, hd2, hfacts⟩ := ih _ name hr
          rw [strMem_append] at hmem
          exact ⟨(Bool.or_eq_false_iff.mp hmem).1, d2,
            List.mem_cons_of_mem _ hd2, hfacts⟩

/-- If every name already present or created starting from `hpas` is present
in `H`, a run starting from `H` creates nothing. -/
theorem updateHPAs_covered_empty (pods : List Pod) (now : Nat) :
    ∀ (ds : List Deployment) (hpas H : List String),
      (∀ x, x ∈ hpas → x ∈ H) →
      (∀ x, x ∈ updateHPAs pods now hpas ds → x ∈ H) →
      updateHPAs pods now H ds = [] := by
  intro ds
  induction ds with
  | nil => intro hpas H hsub hrun; rfl
  | cons d rest ih =>
    intro hpas H hsub hrun
    by_cases hmemHpas : strMem d.apiName hpas = true
    · -- the hpas-run also skips d, so hrun is already about the tail
      have hmemH : strMem d.apiName H = true :=
        (strMem_iff _ _).mpr (hsub _ ((strMem_iff _ _).mp hmemHpas))
      simp only [updateHPAs, hmemH, if_true]
      refine ih hpas H hsub (fun x hx => hrun x ?_)
      simp only [updateHPAs, hmemHpas, if_true]
      exact hx
    · by_cases hrep : numUpdatedReadyReplicas d pods < d.replicas
      · -- both runs skip d on the replica check (or H skips on presence)
        have hskip : ∀ x, x ∈ updateHPAs pods now hpas rest → x ∈ H := by
          intro x hx
          refine hrun x ?_
          simp only [updateHPAs, hmemHpas, if_false, if_pos hrep]
          exact hx
        simp only [updateHPAs, if_pos hrep, ite_self]
        exact ih hpas H hsub hskip
      · -- the hpas-run reaches the creation branch
        by_cases hmemH : strMem d.apiName H = true
        · simp only [updateHPAs, hmemH, if_true]
          refine ih (hpas ++ (d.conditions.filter (progressOK now)).map
            (fun _ => d.apiName)) H ?_ ?_
          · intro x hx
            rcases List.mem_append.mp hx with hx1 | hx2
            · exact hsub x hx1
            · refine hrun x ?_
              simp only [updateHPAs, hmemHpas, Bool.false_eq_true, if_false,
                if_neg hrep]
              exact List.mem_append_left _ hx2
          · intro x hx
            refine hrun x ?_
            simp only [updateHPAs, hmemHpas, Bool.false_eq_true, if_false,
              if_neg hrep]
            exact List.mem_append_right _ hx
        · -- d.apiName is not in H, so the hpas-run cannot have created it:
          -- the creation list must be empty
          have hcreated :
              (d.conditions.filter (progressOK now)).map
                (fun _ => d.apiName) = [] := by
            cases hcr : (d.conditions.filter (progressOK now)).map
                (fun _ => d.apiName) with
            | nil => rfl
            | cons a t =>
              exfalso
              have ha : a = d.apiName := by
                have : a ∈ (d.conditions.filter (progressOK now)).map
                    (fun _ => d.apiName) := by rw [hcr]; exact List.mem_cons_self a t
                obtain ⟨_, _, h2⟩ := List.mem_map.mp this
                exact h2.symm
              have : d.apiName ∈ H := by
                refine hrun d.apiName ?_
                simp only [updateHPAs, hmemHpas, Bool.false_eq_true, if_false,
                  if_neg hrep]
                refine List.mem_append_left _ ?_
                rw [hcr]; rw [ha] at *; exact List.mem_cons_self _ t
              exact hmemH ((strMem_iff _ _).mpr this)
          simp only [updateHPAs, hmemH, if_false, if_neg hrep, hcreated,
            List.nil_append, List.append_nil]
          refine ih hpas H hsub ?_
          intro x hx
          refine hrun x ?_
          simp only [updateHPAs, hmemHpas, Bool.false_eq_true, if_false,
            if_neg hrep, hcreated, List.nil_append, List.append_nil]
          exact hx

/-- C8: during a reconciliation tick an autoscaler is created for a
deployment only if no autoscaler already exists for its API name, the count
of ready pods carrying that API label and running the latest pod spec is at
least the deployment's desired replica count, and a progressing condition is
True with a non-zero last-update timestamp more than the 35-second dwell in
the past; and a repeat tick against the cluster as left by the first tick
creates no additional autoscaler. -/
theorem updateHPAs_sound_idempotent (pods : List Pod) (now : Nat)
    (hpas : List String) (ds : List Deployment) :
    (∀ name, name ∈ updateHPAs pods now hpas ds →
      strMem name hpas = false ∧
      ∃ d, d ∈ ds ∧ d.apiName = name ∧
        d.replicas ≤ numUpdatedReadyReplicas d pods ∧
        ∃ c, c ∈ d.conditions ∧ c.condType = "Progressing" ∧
          c.status = "True" ∧ c.lastUpdateTime ≠ 0 ∧
          c.lastUpdateTime + 35 < now)
    ∧ updateHPAs pods now (hpas ++ updateHPAs pods now hpas ds) ds = [] := by
  constructor
  · intro name h
    exact updateHPAs_mem pods now ds hpas name h
  · exact updateHPAs_covered_empty pods now ds hpas
      (hpas ++ updateHPAs pods now hpas ds)
      (fun x hx => List.mem_append_left _ hx)
      (fun x hx => List.mem_append_right _ hx)

/-- Witness for C8: the theorem applied at the spec's scenario — desired 2,
two ready up-to-date pods, progressing True 40 seconds ago, no existing
autoscaler: the created name satisfies every requirement and a repeat tick
creates nothing. -/
theorem updateHPAs_sound_idempotent_witness :
    (strMem "x" [] = false ∧
      ∃ d, d ∈ [depX] ∧ d.apiName = "x" ∧
        d.replicas ≤ numUpdatedReadyReplicas d podsX ∧
        ∃ c, c ∈ d.conditions ∧ c.condType = "Progressing" ∧
          c.status = "True" ∧ c.lastUpdateTime ≠ 0 ∧
          c.lastUpdateTime + 35 < 50)
    ∧ updateHPAs podsX 50 ([] ++ updateHPAs podsX 50 [] [depX]) [depX] = [] :=
  ⟨(updateHPAs_sound_idempotent podsX 50 [] [depX]).1 "x" (by decide),
   (updateHPAs_sound_idempotent podsX 50 [] [depX]).2⟩

/-- Incrementing a bucket updates its own lookup. -/
theorem lookup_incrCount_self (m : List (String × Nat)) (t : String) :
    (incrCount m t).lookup t = some ((m.lookup t).getD 0 + 1) := by
  induction m with
  | nil => simp [incrCount]
  | cons kv rest ih =>
    obtain ⟨k, c⟩ := kv
    by_cases hk : k = t
    · subst hk
      simp [incrCount, List.lookup]
    · have hbeq : (t == k) = false := beq_eq_false_iff_ne.mpr (Ne.symm hk)
      simp [incrCount, hk, List.lookup, hbeq, ih]

/-- Incrementing a bucket leaves other lookups unchanged. -/
theorem lookup_incrCount_ne (m : List (String × Nat)) (t s : String)
    (h : s ≠ t) :
    (incrCount m t).lookup s = m.lookup s := by
  have hbeq : (s == t) = false := beq_eq_false_iff_ne.mpr h
  induction m with
  | nil => simp [incrCount, List.lookup, hbeq]
  | cons kv rest ih =>
    obtain ⟨k, c⟩ := kv
    by_cases hk : k = t
    · subst hk
      simp [incrCount, List.lookup, hbeq]
    · rw [show incrCount ((k, c) :: rest) t = (k, c) :: incrCount rest t from
        by simp [incrCount, hk]]
      cases hsk : s == k <;> simp [List.lookup, hsk, ih]

/-- Incrementing a bucket grows the value sum by one. -/
theorem sumVals_incrCount (m : List (String × Nat)) (t : String) :
    sumVals (incrCount m t) = sumVals m + 1 := by
  induction m with
  | nil => simp [incrCount, sumVals]
  | cons kv rest ih =>
    obtain ⟨k, c⟩ := kv
    by_cases hk : k = t
    · subst hk
      simp [incrCount, sumVals]
      omega
    · simp [incrCount, hk, sumVals] at ih ⊢
      omega

/-- The worker count over a cons. -/
theorem workerCount_cons (n : KNode) (rest : List KNode) (t : String) :
    workerCount (n :: rest) t =
      workerCount rest t +
      (if isWorkerNode n = true ∧ instanceTypeOf n = t then 1 else 0) := by
  cases hw : isWorkerNode n with
  | false => simp [workerCount, List.filter_cons, hw]
  | true =>
    by_cases ht : instanceTypeOf n = t
    · simp [workerCount, List.filter_cons, hw, List.countP_cons, ht]
    · simp [workerCount, List.filter_cons, hw, List.countP_cons, ht]

/-- The total accumulated by the telemetry loop. -/
theorem telemetryLoop_snd (nodes : List KNode) :
    ∀ (counts : List (String × Nat)) (total : Nat),
      (telemetryLoop nodes counts total).2 =
        total + (nodes.filter isWorkerNode).length := by
  induction nodes with
  | nil => intro counts total; simp [telemetryLoop]
  | cons n rest ih =>
    intro counts total
    cases hw : isWorkerNode n with
    | false => simp [telemetryLoop, hw, List.filter_cons, ih]
    | true =>
      simp [telemetryLoop, hw, List.filter_cons, ih]
      omega

/-- The value sum accumulated by the telemetry loop. -/
theorem telemetryLoop_sum (nodes : List KNode) :
    ∀ (counts : List (String × Nat)) (total : Nat),
      sumVals (telemetryLoop nodes counts total).1 =
        sumVals counts + (nodes.filter isWorkerNode).length := by
  induction nodes with
  | nil => intro counts total; simp [telemetryLoop]
  | cons n rest ih =>
    intro counts total
    cases hw : isWorkerNode n with
    | false => simp [telemetryLoop, hw, List.filter_cons, ih]
    | true =>
      simp [telemetryLoop, hw, List.filter_cons, ih, sumVals_incrCount]
      omega

/-- The per-bucket lookup computed by the telemetry loop. -/
theorem telemetryLoop_lookup (t : String) (nodes : List KNode) :
    ∀ (counts : List (String × Nat)) (total : Nat),
      (telemetryLoop nodes counts total).1.lookup t =
        if workerCount nodes t = 0 then counts.lookup t
        else some ((counts.lookup t).getD 0 + workerCount nodes t) := by
  induction nodes with
  | nil =>
    intro counts total
    simp [telemetryLoop, workerCount]
  | cons n rest ih =>
    intro counts total
    cases hw : isWorkerNode n with
    | false =>
      rw [show workerCount (n :: rest) t = workerCount rest t by
        rw [workerCount_cons]; simp [hw]]
      simp [telemetryLoop, hw, ih]
    | true =>
      by_cases ht : instanceTypeOf n = t
      · rw [show workerCount (n :: rest) t = workerCount rest t + 1 by
          rw [workerCount_cons]; simp [hw, ht]]
        have hloop : telemetryLoop (n :: rest) counts total =
            telemetryLoop rest (incrCount counts t) (total + 1) := by
          simp [telemetryLoop, hw, ht]
        rw [hloop, ih]
        by_cases hwc : workerCount rest t = 0
        · simp [hwc, lookup_incrCount_self]
        · simp [hwc, lookup_incrCount_self]
          omega
      · rw [show workerCount (n :: rest) t = workerCount rest t by
          rw [workerCount_cons]; simp [ht]]
        have hloop : telemetryLoop (n :: rest) counts total =
            telemetryLoop rest (incrCount counts (instanceTypeOf n))
              (total + 1) := by
          simp [telemetryLoop, hw]
        rw [hloop, ih]
        rw [lookup_incrCount_ne counts (instanceTypeOf n) t (Ne.symm ht)]

end Cron

/-- C9: the telemetry probe's emitted event counts exactly the worker nodes:
looking up any instance-type bucket yields the number of worker nodes bearing
it (absent exactly when that number is zero, with missing instance-type
labels bucketed as `"unknown"` by `instanceTypeOf`), non-worker nodes
contribute to no bucket, and `instanceCount` equals both the number of worker
nodes and the sum of all bucket values. -/
theorem telemetry_event_counts (nodes : List Cron.KNode) (t : String) :
    ((Cron.telemetryEvent nodes).1.lookup t =
      if Cron.workerCount nodes t = 0 then none
      else some (Cron.workerCount nodes t))
    ∧ (Cron.telemetryEvent nodes).2 = (nodes.filter Cron.isWorkerNode).length
    ∧ Cron.sumVals (Cron.telemetryEvent nodes).1 =
      (Cron.telemetryEvent nodes).2 := by
  refine ⟨?_, ?_, ?_⟩
  · have h := Cron.telemetryLoop_lookup t nodes [] 0
    rw [Cron.telemetryEvent, h]
    by_cases hwc : Cron.workerCount nodes t = 0
    · simp [hwc]
    · simp [hwc, List.lookup]
  · rw [Cron.telemetryEvent, Cron.telemetryLoop_snd]
    simp
  · rw [Cron.telemetryEvent, Cron.telemetryLoop_sum, Cron.telemetryLoop_snd]
    simp [Cron.sumVals]

/-- Python predictor validation never yields a duplicate-endpoint error. -/
theorem optClean_validatePythonPredictor (p : Predictor) :
    optClean (validatePythonPredictor p) := by
  intro e he
  unfold validatePythonPredictor at he
  split at he
  · cases he; rfl
  · split at he
    · cases he; rfl
    · exact Option.noConfusion he

/-- ONNX predictor validation never yields a duplicate-endpoint error. -/
theorem optClean_validateONNXPredictor (w : S3World) (p : Predictor) :
    optClean (validateONNXPredictor w p) := by
  intro e he
  unfold validateONNXPredictor at he
  repeat' split at he
  all_goals first
    | exact Option.noConfusion he
    | (cases he; rfl)

/-- TensorFlow predictor validation never yields a duplicate-endpoint
error. -/
theorem optClean_validateTensorFlowPredictor (w : S3World) (p : Predictor) :
    optClean (validateTensorFlowPredictor w p).1 := by
  intro e he
  unfold validateTensorFlowPredictor at he
  repeat' split at he
  all_goals simp only [] at he
  all_goals first
    | exact Option.noConfusion he
    | (cases he; rfl)

/-- The variant switch never yields a duplicate-endpoint error. -/
theorem optClean_predictorVariantCheck (w : S3World) (p : Predictor) :
    optClean (predictorVariantCheck w p).1 := by
  intro e he
  unfold predictorVariantCheck at he
  split at he
  · exact optClean_validatePythonPredictor p e he
  · exact optClean_validateTensorFlowPredictor w p e he
  · exact optClean_validateONNXPredictor w p e he
  · exact Option.noConfusion he

/-- Predictor validation never yields a duplicate-endpoint error. -/
theorem optClean_validatePredictor (w : S3World) (p : Predictor)
    (pfm : List String) :
    optClean (validatePredictor w p pfm).1 := by
  intro e he
  unfold validatePredictor at he
  cases hvc : predictorVariantCheck w p with
  | mk fst p1 =>
    rw [hvc] at he
    cases fst with
    | some e1 =>
      have he2 : some e1 = some e := he
      cases he2
      exact optClean_predictorVariantCheck w p e (by rw [hvc])
    | none =>
      dsimp only at he
      by_cases hc : pfm.contains p1.path = true
      · rw [if_pos hc] at he
        cases hpp : p1.pythonPath with
        | none =>
          rw [hpp] at he
          exact Option.noConfusion he
        | some pp =>
          rw [hpp] at he
          dsimp only at he
          cases hvp : validatePythonPath pp pfm with
          | none =>
            rw [hvp] at he
            exact Option.noConfusion he
          | some e2 =>
            rw [hvp] at he
            have he2 : some (VErr.wrap "python_path" e2) = some e := he
            cases he2
            have h2 : errHasDupEndpoint e2 = false := by
              unfold validatePythonPath at hvp
              split at hvp
              · exact Option.noConfusion hvp
              · cases hvp; rfl
            simpa [errHasDupEndpoint] using h2
      · rw [if_neg hc] at he
        have he2 :
            some (VErr.wrap "path" (VErr.implDoesNotExist p1.path)) =
              some e := he
        cases he2
        rfl

/-- Available-capacity validation never yields a duplicate-endpoint error. -/
theorem optClean_validateAvailableCompute (c : Compute) (cl : ClusterMeta)
    (maxMem : Int) :
    optClean (validateAvailableCompute c cl maxMem).1 := by
  intro e he
  simp only [validateAvailableCompute] at he
  repeat' split at he
  all_goals simp only [] at he
  all_goals first
    | exact Option.noConfusion he
    | (cases he; rfl)

/-- Compute validation never yields a duplicate-endpoint error. -/
theorem optClean_validateCompute (c : Compute) (cl : ClusterMeta)
    (maxMem : Int) :
    optClean (validateCompute c cl maxMem).1 := by
  intro e he
  unfold validateCompute at he
  repeat' split at he
  all_goals try (cases he; rfl)
  exact optClean_validateAvailableCompute c cl maxMem e he

/-- With no virtual services there is no endpoint collision. -/
theorem validateEndpointCollisions_nil (api : API) :
    validateEndpointCollisions api [] = none := rfl

/-- Against an empty cluster, validating one API never yields a
duplicate-endpoint error. -/
theorem optClean_validateAPI_noVS (api : API) (pfm : List String)
    (w : S3World) (cl : ClusterMeta) (maxMem : Int) :
    optClean (validateAPI api pfm w [] cl maxMem).1 := by
  intro e he
  simp only [validateAPI] at he
  split at he
  · rename_i heq
    cases he
    simp only [errHasDupEndpoint]
    exact optClean_validatePredictor w _ pfm _ (by rw [heq])
  · split at he
    · rename_i heq
      cases he
      simp only [errHasDupEndpoint]
      exact optClean_validateCompute _ cl maxMem _ (by rw [heq])
    · split at he
      · rename_i heq
        rw [validateEndpointCollisions_nil] at heq
        exact Option.noConfusion heq
      · exact Option.noConfusion he

/-- Against an empty cluster, the per-API loop never fails with a
duplicate-endpoint error. -/
theorem resultClean_validateAPIsLoop (pfm : List String) (w : S3World)
    (cl : ClusterMeta) :
    ∀ (apis : List API) (maxMem : Int),
      resultHasDupEndpoint (validateAPIsLoop pfm w [] cl apis maxMem) =
        false := by
  intro apis
  induction apis with
  | nil => intro maxMem; rfl
  | cons api rest ih =>
    intro maxMem
    simp only [validateAPIsLoop]
    split
    · rename_i e api1 maxMem1 heq
      simp only [resultHasDupEndpoint]
      exact optClean_validateAPI_noVS api pfm w cl maxMem e (by rw [heq])
    · rename_i api1 maxMem1 heq
      split
      · rename_i e2 hloop
        have h2 := ih maxMem1
        rw [hloop] at h2
        exact h2
      · rfl

/-- C3 (amended): with no virtual service serving the endpoint — in
particular, against an empty cluster — the validation pass never fails with a
duplicate-endpoint error: endpoint collisions are checked only against the
cluster's existing virtual services, so two APIs in the same manifest with
distinct names and the same endpoint are both accepted whenever each
validates individually. -/
theorem no_duplicate_endpoint_error_without_virtual_services
    (apis : List API) (pfm : List String) (w : S3World) (cl : ClusterMeta)
    (maxMem : Int) (nameOrder : List String) :
    resultHasDupEndpoint (validateAPIs apis pfm w [] cl maxMem nameOrder) =
      false := by
  unfold validateAPIs
  split
  · rfl
  · split
    · exact resultClean_validateAPIsLoop pfm w cl apis maxMem
    · rfl

end Cortex
